import Mathlib

/-!
Verification development for the Mail-Marketing backend
(`backend/services/email_processor.py`, `backend/services/retry_service.py`,
`backend/database.py`, `backend/routes/{emails,drafts,bulk,retry}.py`,
`backend/main.py`).

The stateful Python code is shallowly embedded: the SQLite store becomes an
explicit `DB` record threaded through each operation, the Gmail client and the
classifier become oracles (records of pure functions, with `Option` results
standing for the null-on-error contract and `Except` standing for a raised
exception), wall-clock timestamps become `Nat` minutes passed in explicitly,
and provider/persistence side effects are recorded in an `Effect` trace.
-/

namespace MailMarketing

/-- `models/schemas.py` `EmailCategory`. -/
inductive EmailCategory where
  | auto_reply
  | rag_reply
  | pending_manual
  | draft_review
deriving DecidableEq, Repr

/-- `models/schemas.py` `EmailStatus`. -/
inductive EmailStatus where
  | pending
  | replied
  | draft
  | manual_required
deriving DecidableEq, Repr

/-- `models/schemas.py` `Email` (the fields the core pipeline reads/writes). -/
structure Email where
  id : String
  thread_id : String
  sender : String
  subject : String
  body : String
  category : Option EmailCategory := none
  status : EmailStatus := .pending
  ai_response : Option String := none
  processed_at : Option Nat := none
deriving DecidableEq, Repr

/-- `models/schemas.py` `EmailReply`. -/
structure EmailReply where
  to_addr : String
  subject : String
  body : String
  thread_id : Option String := none
deriving DecidableEq, Repr

/-- A row of the `drafts` table (`database.py`). -/
structure DraftRow where
  id : String
  email_id : String
  gmail_draft_id : String
  ai_response : String
  created_at : Nat
  status : String := "pending"
deriving DecidableEq, Repr

/-- The JSON payload stored with a retry entry (`retry_service.py`). -/
structure RetryPayload where
  to_addr : String := ""
  subject : String := ""
  body : String := ""
  thread_id : Option String := none
  gmail_draft_id : Option String := none
deriving DecidableEq, Repr

/-- A row of the `retry_queue` table (`database.py`). -/
structure RetryEntry where
  id : String
  email_id : String
  action : String
  payload : RetryPayload
  error_message : String
  attempt_count : Nat
  max_attempts : Nat
  next_retry_at : Nat
  last_attempted_at : Option Nat := none
  status : String := "pending"
deriving DecidableEq, Repr

/-- The SQLite database of `database.py`, as explicit state. -/
structure DB where
  emails : List Email := []
  drafts : List DraftRow := []
  retry_queue : List RetryEntry := []
  settings : List (String × String) := []
deriving DecidableEq, Repr

/-- Python truthiness of an `Optional[str]` (`None` and `""` are falsy). -/
def strTruthy : Option String → Bool
  | none => false
  | some s => s ≠ ""

namespace DB

/-- `Database.save_email`: `INSERT OR REPLACE INTO emails` keyed by id. -/
def save_email (db : DB) (e : Email) : DB :=
  if db.emails.any (fun x => x.id = e.id) then
    { db with emails := db.emails.map (fun x => if x.id = e.id then e else x) }
  else
    { db with emails := db.emails ++ [e] }

/-- `Database.get_email`: `SELECT * FROM emails WHERE id = ?`. -/
def get_email (db : DB) (email_id : String) : Option Email :=
  db.emails.find? (fun e => e.id = email_id)

/-- `Database.is_email_processed`: presence check on the emails table. -/
def is_email_processed (db : DB) (email_id : String) : Bool :=
  db.emails.any (fun e => e.id = email_id)

/-- `Database.update_email_status`: sets status and `processed_at`, and also
`ai_response` when the passed value is truthy (`if ai_response:` in Python).
Returns the updated store and `rowcount > 0`. -/
def update_email_status (db : DB) (email_id : String) (status : EmailStatus)
    (ai_response : Option String) (now : Nat) : DB × Bool :=
  let upd : Email → Email := fun e =>
    if e.id = email_id then
      if strTruthy ai_response then
        { e with status := status, ai_response := ai_response, processed_at := some now }
      else
        { e with status := status, processed_at := some now }
    else e
  ({ db with emails := db.emails.map upd },
   db.emails.any (fun e => e.id = email_id))

/-- `Database.save_draft`: plain `INSERT INTO drafts`, status defaults to
`'pending'`. -/
def save_draft (db : DB) (d : DraftRow) : DB :=
  { db with drafts := db.drafts ++ [d] }

/-- `Database.get_draft`. -/
def get_draft (db : DB) (draft_id : String) : Option DraftRow :=
  db.drafts.find? (fun d => d.id = draft_id)

/-- `Database.update_draft_status`; returns the store and `rowcount > 0`. -/
def update_draft_status (db : DB) (draft_id : String) (status : String) : DB × Bool :=
  ({ db with drafts := db.drafts.map (fun d =>
      if d.id = draft_id then { d with status := status } else d) },
   db.drafts.any (fun d => d.id = draft_id))

/-- `Database.add_retry`: inserts a fresh `'pending'` entry with
`attempt_count = 0` and `next_retry_at = now + 1 minute`. -/
def add_retry (db : DB) (retry_id email_id action : String) (payload : RetryPayload)
    (error : String) (max_attempts : Nat) (now : Nat) : DB :=
  { db with retry_queue := db.retry_queue ++ [{
      id := retry_id
      email_id := email_id
      action := action
      payload := payload
      error_message := error
      attempt_count := 0
      max_attempts := max_attempts
      next_retry_at := now + 1
      status := "pending" }] }

/-- Due predicate of `Database.get_due_retries`:
`status = 'pending' AND next_retry_at <= now`. -/
def retryDue (now : Nat) (e : RetryEntry) : Bool :=
  e.status = "pending" && e.next_retry_at ≤ now

end DB

/-- Insertion step for `ORDER BY next_retry_at ASC`. -/
def insertByDue (e : RetryEntry) : List RetryEntry → List RetryEntry
  | [] => [e]
  | x :: xs =>
    if e.next_retry_at ≤ x.next_retry_at then e :: x :: xs else x :: insertByDue e xs

/-- Sort by `next_retry_at` ascending (`ORDER BY` of `get_due_retries`). -/
def sortByDue : List RetryEntry → List RetryEntry
  | [] => []
  | x :: xs => insertByDue x (sortByDue xs)

namespace DB

/-- `Database.get_due_retries`: pending entries whose `next_retry_at` has
passed, ordered by `next_retry_at` ascending. -/
def get_due_retries (db : DB) (now : Nat) : List RetryEntry :=
  sortByDue (db.retry_queue.filter (DB.retryDue now))

/-- `Database.update_retry`: sets attempt info and forces status back to
`'pending'`; returns the store and `rowcount > 0`. -/
def update_retry (db : DB) (retry_id : String) (attempt_count : Nat)
    (error : String) (next_retry_at : Nat) (now : Nat) : DB × Bool :=
  ({ db with retry_queue := db.retry_queue.map (fun e =>
      if e.id = retry_id then
        { e with attempt_count := attempt_count, error_message := error,
                 next_retry_at := next_retry_at, last_attempted_at := some now,
                 status := "pending" }
      else e) },
   db.retry_queue.any (fun e => e.id = retry_id))

/-- `Database.update_retry_status`. -/
def update_retry_status (db : DB) (retry_id : String) (status : String)
    (now : Nat) : DB × Bool :=
  ({ db with retry_queue := db.retry_queue.map (fun e =>
      if e.id = retry_id then
        { e with status := status, last_attempted_at := some now }
      else e) },
   db.retry_queue.any (fun e => e.id = retry_id))

/-- `Database.delete_retry`. -/
def delete_retry (db : DB) (retry_id : String) : DB × Bool :=
  ({ db with retry_queue := db.retry_queue.filter (fun e => ¬ e.id = retry_id) },
   db.retry_queue.any (fun e => e.id = retry_id))

/-- `Database.get_setting`. -/
def get_setting (db : DB) (key : String) : Option String :=
  (db.settings.find? (fun p => p.1 = key)).map (fun p => p.2)

/-- `Database.set_setting`: `INSERT OR REPLACE`. -/
def set_setting (db : DB) (key value : String) : DB :=
  { db with settings := (key, value) :: db.settings.filter (fun p => ¬ p.1 = key) }

end DB

/-- The Gmail client (`gmail_service.py`) as an oracle: a deterministic
function table. `Option` results model the null-on-error contract. `unread`
is the inbox content backing `get_unread_emails`. -/
structure Gmail where
  unread : List Email
  reply_to_email : Email → String → Option String
  send_email : EmailReply → Option String
  create_draft : EmailReply → Option String
  send_draft : String → Option String
  delete_draft : String → Bool
  mark_as_read : String → Bool

/-- `GmailService.get_unread_emails(max_results)`: up to `max_results`
messages from the inbox. -/
def Gmail.get_unread_emails (g : Gmail) (max_results : Nat) : List Email :=
  g.unread.take max_results

/-- The classifier (`classifier.py`) as an oracle. `process_email` returns the
classification category and the optional generated response; a `.error` result
models a Python exception raised while processing the message. -/
structure Classifier where
  process_email : Email → Except String (EmailCategory × Option String)

/-- Observable side effects of the pipeline, recorded in order. -/
inductive Effect where
  | fetch_unread (max_results : Nat)
  | classify (email_id : String)
  | send_reply (email_id : String) (body : String)
  | create_draft (email_id : String) (to_addr subject body : String)
  | mark_read (email_id : String)
  | save_email (e : Email)
  | save_draft (d : DraftRow)
deriving DecidableEq, Repr

/-- The message id an effect concerns, if any. -/
def Effect.target : Effect → Option String
  | .fetch_unread _ => none
  | .classify i => some i
  | .send_reply i _ => some i
  | .create_draft i _ _ _ => some i
  | .mark_read i => some i
  | .save_email e => some e.id
  | .save_draft d => some d.email_id

/-- Whether an effect is a call to the mail provider. -/
def Effect.isProviderCall : Effect → Bool
  | .fetch_unread _ => true
  | .send_reply _ _ => true
  | .create_draft _ _ _ _ => true
  | .mark_read _ => true
  | _ => false

/-- Whether an effect persists a Message Record. -/
def Effect.isSaveEmail : Effect → Bool
  | .save_email _ => true
  | _ => false

/-- Whether an effect persists a Draft row. -/
def Effect.isSaveDraft : Effect → Bool
  | .save_draft _ => true
  | _ => false

/-- `"Re: "` prefixing of `email_processor.py` / `routes/drafts.py`. -/
def reSubject (subject : String) : String :=
  if (subject.toLower).startsWith "re:" then subject else "Re: " ++ subject

/-- The annotation applied to a message right after classification
(`email.category = ...; email.ai_response = ...; email.processed_at = ...`). -/
def annotated (m : Email) (cat : EmailCategory) (resp : Option String) (now : Nat) : Email :=
  { m with category := some cat, ai_response := resp, processed_at := some now }

/-- The `EmailReply` built for a review draft (`Re:`-prefixed subject). -/
def draftReplyFor (m : Email) (r : String) : EmailReply :=
  { to_addr := m.sender, subject := reSubject m.subject, body := r,
    thread_id := some m.thread_id }

/-- The category dispatch of `email_processor.process_single_email` (the
`if/elif` chain over `classification.category`): given the already-annotated
record `m1`, performs the category's provider calls and returns the record
with its final status, the store after any draft save, and the effect trace.
`fid` is the `uuid4` drawn for a new draft. -/
def categoryStep (gmail : Gmail) (db : DB) (m1 : Email) (cat : EmailCategory)
    (response : Option String) (now : Nat) (fid : String) :
    Email × DB × List Effect :=
  let r := response.getD ""
  match cat with
  | .auto_reply =>
    if strTruthy response then
      match gmail.reply_to_email m1 r with
      | some _ =>
        ({ m1 with status := .replied }, db,
         [.send_reply m1.id r, .mark_read m1.id])
      | none =>
        ({ m1 with status := .manual_required }, db, [.send_reply m1.id r])
    else ({ m1 with status := .manual_required }, db, [])
  | .rag_reply =>
    if strTruthy response then
      match gmail.reply_to_email m1 r with
      | some _ =>
        ({ m1 with status := .replied }, db,
         [.send_reply m1.id r, .mark_read m1.id])
      | none =>
        ({ m1 with status := .manual_required }, db, [.send_reply m1.id r])
    else ({ m1 with status := .manual_required }, db, [])
  | .draft_review =>
    if strTruthy response then
      let reply := draftReplyFor m1 r
      match gmail.create_draft reply with
      | some gmail_draft_id =>
        let d : DraftRow :=
          { id := fid, email_id := m1.id, gmail_draft_id := gmail_draft_id,
            ai_response := r, created_at := now, status := "pending" }
        ({ m1 with status := .draft }, db.save_draft d,
         [.create_draft m1.id reply.to_addr reply.subject reply.body,
          .save_draft d, .mark_read m1.id])
      | none =>
        ({ m1 with status := .manual_required }, db,
         [.create_draft m1.id reply.to_addr reply.subject reply.body])
    else ({ m1 with status := .manual_required }, db, [])
  | .pending_manual =>
    ({ m1 with status := .manual_required }, db, [])

/-- `email_processor.process_single_email`. The classifier result is threaded
through; a `.error` stands for an exception escaping the function (nothing is
persisted in that case). On `.ok` the resulting store and the emitted effect
trace are returned. -/
def process_single_email (gmail : Gmail) (cls : Classifier) (db : DB)
    (m : Email) (now : Nat) (fresh_draft_id : String) :
    Except String DB × List Effect :=
  match cls.process_email m with
  | .error e => (.error e, [.classify m.id])
  | .ok (cat, response) =>
    let m1 := annotated m cat response now
    let step := categoryStep gmail db m1 cat response now fresh_draft_id
    (.ok (step.2.1.save_email step.1),
     .classify m.id :: (step.2.2 ++ [.save_email step.1]))

/-- The record written by the `except` handler of `process_new_emails`: on an
exception the message is force-saved as `pending_manual` / `manual_required`
with a processed timestamp. -/
def forcedRecord (now : Nat) (m : Email) : Email :=
  { m with category := some .pending_manual, status := .manual_required,
           processed_at := some now }

/-- The loop body of `email_processor.process_new_emails`: skip already
processed ids, otherwise process; on an exception force-record the message as
`pending_manual` / `manual_required` and continue. `ids` supplies the fresh
draft uuid for the `idx`-th processed message. Returns the final store, the
processed count and the effect trace. -/
def processLoop (gmail : Gmail) (cls : Classifier) (now : Nat) (ids : Nat → String) :
    List Email → DB → Nat → DB × Nat × List Effect
  | [], db, _ => (db, 0, [])
  | m :: rest, db, idx =>
    if db.is_email_processed m.id then
      processLoop gmail cls now ids rest db idx
    else
      match process_single_email gmail cls db m now (ids idx) with
      | (.ok db2, tr) =>
        let out := processLoop gmail cls now ids rest db2 (idx + 1)
        (out.1, out.2.1 + 1, tr ++ out.2.2)
      | (.error _, tr) =>
        let db2 := db.save_email (forcedRecord now m)
        let out := processLoop gmail cls now ids rest db2 (idx + 1)
        (out.1, out.2.1 + 1, tr ++ [.save_email (forcedRecord now m)] ++ out.2.2)

/-- `email_processor.process_new_emails`: fetch up to 20 unread messages and
run the loop. -/
def process_new_emails (gmail : Gmail) (cls : Classifier) (db : DB)
    (now : Nat) (ids : Nat → String) : DB × Nat × List Effect :=
  let fetched := gmail.get_unread_emails 20
  let out := processLoop gmail cls now ids fetched db 0
  (out.1, out.2.1, .fetch_unread 20 :: out.2.2)

/-- The sentinel response text written by the initialization sweep. -/
def initSentinel : String := "[Skipped - existed before system start]"

/-- The record written for a pre-existing message by `initialize_system`. -/
def initSweepRecord (now : Nat) (e : Email) : Email :=
  { e with category := none, status := .replied,
           ai_response := some initSentinel, processed_at := some now }

/-- `email_processor.initialize_system`: one-shot sweep gated by the
`system_initialized` setting. -/
def initialize_system (gmail : Gmail) (db : DB) (now : Nat) :
    DB × Nat × List Effect :=
  if db.get_setting "system_initialized" = some "true" then
    (db, 0, [])
  else
    let fetched := gmail.get_unread_emails 100
    let db1 := fetched.foldl (fun d e => d.save_email (initSweepRecord now e)) db
    let db2 := (db1.set_setting "system_initialized" "true").set_setting
      "initialized_at" (toString now)
    (db2, fetched.length,
     .fetch_unread 100 :: fetched.map (fun e => .save_email (initSweepRecord now e)))

/-- `main.manual_initialize` (`POST /api/initialize`): reset the flag, then
run the sweep. -/
def manual_initialize_route (gmail : Gmail) (db : DB) (now : Nat) :
    DB × Nat × List Effect :=
  initialize_system gmail (db.set_setting "system_initialized" "false") now

/-- The sentinel text written when an operator dismisses a pending email
(`routes/emails.py` `dismiss_email`, `routes/bulk.py` `bulk_dismiss`). -/
def dismissSentinel : String := "[Dismissed by user]"

/-- `retry_service.BACKOFF_MINUTES`. -/
def BACKOFF_MINUTES : List Nat := [1, 5, 15, 30, 60]

/-- The `try` block of `RetryService._retry_single`. A `.error` result models
the raised exception caught by the handler; `.ok` carries the store after the
success-path updates. -/
def retry_attempt (gmail : Gmail) (db : DB) (item : RetryEntry) (now : Nat) :
    Except String DB :=
  if item.action = "send_reply" then
    let reply : EmailReply :=
      { to_addr := item.payload.to_addr, subject := item.payload.subject,
        body := item.payload.body, thread_id := item.payload.thread_id }
    match gmail.send_email reply with
    | none => .error "send_email returned None"
    | some _ =>
      let db1 := (db.update_retry_status item.id "succeeded" now).1
      .ok (db1.update_email_status item.email_id .replied (some item.payload.body) now).1
  else if item.action = "send_draft" then
    if strTruthy item.payload.gmail_draft_id then
      match gmail.send_draft (item.payload.gmail_draft_id.getD "") with
      | none => .error "send_draft returned None"
      | some _ => .ok (db.update_retry_status item.id "succeeded" now).1
    else .error ("Unknown action: " ++ item.action)
  else .error ("Unknown action: " ++ item.action)

/-- `RetryService._retry_single`: run the attempt; on an exception either mark
the entry `failed` (attempt exhausted) or record the attempt with the next
backoff time. -/
def retry_single (gmail : Gmail) (db : DB) (item : RetryEntry) (now : Nat) : DB :=
  let attempt := item.attempt_count + 1
  match retry_attempt gmail db item now with
  | .ok db1 => db1
  | .error e =>
    if item.max_attempts ≤ attempt then
      (db.update_retry_status item.id "failed" now).1
    else
      let backoff_idx := min attempt (BACKOFF_MINUTES.length - 1)
      let next_retry := now + BACKOFF_MINUTES.getD backoff_idx 0
      (db.update_retry item.id attempt e next_retry now).1

/-- `RetryService.process_retries`: sweep all due entries once each. -/
def process_retries (gmail : Gmail) (db : DB) (now : Nat) : DB × Nat :=
  let items := db.get_due_retries now
  (items.foldl (fun d item => retry_single gmail d item now) db, items.length)

/-- `RetryService.add_to_queue`. -/
def add_to_queue (db : DB) (fresh_id email_id action : String) (payload : RetryPayload)
    (error : String) (now : Nat) (max_attempts : Nat) : DB :=
  db.add_retry fresh_id email_id action payload error max_attempts now

/-- `RetryService.manual_retry`: reset an entry for immediate processing. -/
def manual_retry (db : DB) (retry_id : String) (now : Nat) : DB × Bool :=
  db.update_retry retry_id 0 "Manual retry triggered" now now

/-- `RetryService.cancel_retry`. -/
def cancel_retry (db : DB) (retry_id : String) : DB × Bool :=
  db.delete_retry retry_id

/-- An HTTP error: status code and detail (`HTTPException`). -/
abbrev HttpErr := Nat × String

/-- `routes/emails.py` `reply_to_email` (`POST /api/emails/reply/{email_id}`).
`response_field` is `body.get("response")`. The route returns the result and
the store as left by the handler (an `HTTPException` aborts before any
write). -/
def reply_to_email_route (gmail : Gmail) (db : DB) (email_id : String)
    (response_field : Option String) (now : Nat) : Except HttpErr String × DB :=
  match db.get_email email_id with
  | none => (.error (404, "Email not found"), db)
  | some email =>
    let response_body := response_field.getD ""
    if response_body = "" then (.error (400, "Response body required"), db)
    else
      match gmail.reply_to_email email response_body with
      | none => (.error (500, "Failed to send reply"), db)
      | some message_id =>
        (.ok message_id,
         (db.update_email_status email_id .replied (some response_body) now).1)

/-- `routes/drafts.py` `approve_draft` (`POST /api/drafts/{draft_id}/approve`). -/
def approve_draft_route (gmail : Gmail) (db : DB) (draft_id : String) (now : Nat) :
    Except HttpErr String × DB :=
  match db.get_draft draft_id with
  | none => (.error (404, "Draft not found"), db)
  | some draft =>
    if draft.status ≠ "pending" then (.error (400, "Draft is not pending"), db)
    else
      match gmail.send_draft draft.gmail_draft_id with
      | none => (.error (500, "Failed to send draft"), db)
      | some message_id =>
        let db1 := (db.update_draft_status draft_id "approved").1
        let db2 := (db1.update_email_status draft.email_id .replied none now).1
        (.ok message_id, db2)

/-- `routes/drafts.py` `discard_draft` (`DELETE /api/drafts/{draft_id}`): the
provider-side draft is deleted (result ignored), the Draft row becomes
`discarded`, and the owning record reverts to `manual_required`. -/
def discard_draft_route (gmail : Gmail) (db : DB) (draft_id : String) (now : Nat) :
    Except HttpErr Unit × DB :=
  match db.get_draft draft_id with
  | none => (.error (404, "Draft not found"), db)
  | some draft =>
    let db1 := (db.update_draft_status draft_id "discarded").1
    let db2 := (db1.update_email_status draft.email_id .manual_required none now).1
    (.ok (), db2)

/-- Loop body of `routes/bulk.py` `bulk_reply`; returns the store and the
`(sent, failed)` counters. -/
def bulkReplyLoop (gmail : Gmail) (resp : String) (now : Nat) :
    List String → DB → DB × Nat × Nat
  | [], db => (db, 0, 0)
  | email_id :: rest, db =>
    match db.get_email email_id with
    | none =>
      let out := bulkReplyLoop gmail resp now rest db
      (out.1, out.2.1, out.2.2 + 1)
    | some email =>
      match gmail.reply_to_email email resp with
      | some _ =>
        let db1 := (db.update_email_status email_id .replied (some resp) now).1
        let out := bulkReplyLoop gmail resp now rest db1
        (out.1, out.2.1 + 1, out.2.2)
      | none =>
        let out := bulkReplyLoop gmail resp now rest db
        (out.1, out.2.1, out.2.2 + 1)

/-- Python `str.strip()` whitespace characters. -/
def isSpaceChar (c : Char) : Bool :=
  c = ' ' || c = '\t' || c = '\n' || c = '\r'

/-- Python `str.strip()`: drop leading and trailing whitespace. -/
def pyStrip (s : String) : String :=
  ⟨((s.data.dropWhile isSpaceChar).reverse.dropWhile isSpaceChar).reverse⟩

/-- `routes/bulk.py` `bulk_reply` (`POST /api/emails/bulk/reply`). -/
def bulk_reply_route (gmail : Gmail) (db : DB) (email_ids : List String)
    (resp : String) (now : Nat) : Except HttpErr (Nat × Nat) × DB :=
  if email_ids = [] then (.error (400, "No email IDs provided"), db)
  else if pyStrip resp = "" then (.error (400, "Response body is required"), db)
  else
    let out := bulkReplyLoop gmail resp now email_ids db
    (.ok (out.2.1, out.2.2), out.1)

/-! ### Concrete fixtures (used by witnesses and counterexamples) -/

/-- A sample inbound message. -/
def mSample : Email :=
  { id := "m1", thread_id := "t1", sender := "alice@example.com",
    subject := "Hello", body := "hi there" }

/-- The empty store. -/
def dbEmpty : DB := {}

/-- A Gmail oracle whose send/draft calls all fail (return null). -/
def gmailFail : Gmail :=
  { unread := [mSample], reply_to_email := fun _ _ => none,
    send_email := fun _ => none, create_draft := fun _ => none,
    send_draft := fun _ => none, delete_draft := fun _ => false,
    mark_as_read := fun _ => true }

/-- A Gmail oracle whose provider calls all succeed. -/
def gmailOk : Gmail :=
  { unread := [mSample], reply_to_email := fun _ _ => some "sent-1",
    send_email := fun _ => some "sent-1", create_draft := fun _ => some "gd-1",
    send_draft := fun _ => some "sent-2", delete_draft := fun _ => true,
    mark_as_read := fun _ => true }

/-- A classifier that classifies everything `auto_reply` with a response. -/
def clsAuto : Classifier :=
  { process_email := fun _ => .ok (.auto_reply, some "Hello back") }

/-- A classifier that raises on every message. -/
def clsBoom : Classifier :=
  { process_email := fun _ => .error "boom" }

/-- A store already holding `mSample`'s record. -/
def dbWithM1 : DB := { emails := [mSample] }

/-- A pending draft row owned by `mSample`. -/
def dSample : DraftRow :=
  { id := "d1", email_id := "m1", gmail_draft_id := "gd-1",
    ai_response := "Draft body", created_at := 3, status := "pending" }

/-- A store holding `mSample`'s record and a pending draft. -/
def dbWithDraft : DB := { emails := [mSample], drafts := [dSample] }

/-- A pending retry entry on its last allowed attempt. -/
def rLast : RetryEntry :=
  { id := "r1", email_id := "m1", action := "send_reply",
    payload := { to_addr := "alice@example.com", subject := "Re: Hello", body := "B" },
    error_message := "send failed", attempt_count := 4, max_attempts := 5,
    next_retry_at := 3, status := "pending" }

/-- A pending retry entry with attempts to spare. -/
def rEarly : RetryEntry :=
  { rLast with id := "r2", attempt_count := 1 }

/-- A terminally failed retry entry whose `next_retry_at` is in the past. -/
def rFailed : RetryEntry :=
  { rLast with id := "r3", status := "failed", next_retry_at := 0 }

/-- A store with all three retry entries queued. -/
def dbRetry : DB := { retry_queue := [rLast, rEarly, rFailed] }

/-- A store whose initialization flag is already set. -/
def dbFlagged : DB := { settings := [("system_initialized", "true")] }

/-! ### Supporting lemmas -/

theorem mem_insertByDue {x e : RetryEntry} {l : List RetryEntry} :
    x ∈ insertByDue e l ↔ x = e ∨ x ∈ l := by
  induction l with
  | nil => simp [insertByDue]
  | cons y ys ih =>
    by_cases h : e.next_retry_at ≤ y.next_retry_at
    · simp [insertByDue, h]
    · simp only [insertByDue, if_neg h, List.mem_cons, ih]
      tauto

theorem mem_sortByDue {x : RetryEntry} {l : List RetryEntry} :
    x ∈ sortByDue l ↔ x ∈ l := by
  induction l with
  | nil => simp [sortByDue]
  | cons y ys ih => simp [sortByDue, mem_insertByDue, ih]

theorem mem_get_due_retries {db : DB} {now : Nat} {e : RetryEntry} :
    e ∈ db.get_due_retries now ↔ e ∈ db.retry_queue ∧ DB.retryDue now e = true := by
  simp [DB.get_due_retries, mem_sortByDue, List.mem_filter]

theorem get_setting_set_same (db : DB) (k v : String) :
    (db.set_setting k v).get_setting k = some v := by
  simp [DB.set_setting, DB.get_setting]

theorem find_keep_other (ps : List (String × String)) (k k' : String)
    (hk : ¬ k = k') :
    List.find? (fun p => p.1 = k') (ps.filter (fun p => ¬ p.1 = k)) =
      List.find? (fun p => p.1 = k') ps := by
  induction ps with
  | nil => rfl
  | cons p ps ih =>
    rw [List.filter_cons]
    by_cases hp : p.1 = k
    · have hp' : ¬ (p.1 = k') := by rw [hp]; exact hk
      rw [if_neg (by simp [hp]), List.find?_cons_of_neg _ (by simp [hp'])]
      exact ih
    · rw [if_pos (by simp [hp])]
      by_cases hp' : p.1 = k'
      · rw [List.find?_cons_of_pos _ (by simp [hp']),
          List.find?_cons_of_pos _ (by simp [hp'])]
      · rw [List.find?_cons_of_neg _ (by simp [hp']),
          List.find?_cons_of_neg _ (by simp [hp'])]
        exact ih

theorem get_setting_set_ne (db : DB) (k v k' : String) (h : k' ≠ k) :
    (db.set_setting k v).get_setting k' = db.get_setting k' := by
  have hk : ¬ (k = k') := fun hkk => h hkk.symm
  simp only [DB.set_setting, DB.get_setting, List.find?_cons]
  rw [show (decide (k = k')) = false from by simp [hk]]
  rw [find_keep_other db.settings k k' hk]

theorem save_email_retry_queue (db : DB) (e : Email) :
    (db.save_email e).retry_queue = db.retry_queue := by
  simp only [DB.save_email]; split <;> rfl

theorem save_email_settings (db : DB) (e : Email) :
    (db.save_email e).settings = db.settings := by
  simp only [DB.save_email]; split <;> rfl

theorem save_email_drafts (db : DB) (e : Email) :
    (db.save_email e).drafts = db.drafts := by
  simp only [DB.save_email]; split <;> rfl

theorem save_draft_emails (db : DB) (d : DraftRow) :
    (db.save_draft d).emails = db.emails := rfl

theorem save_draft_retry_queue (db : DB) (d : DraftRow) :
    (db.save_draft d).retry_queue = db.retry_queue := rfl

theorem is_email_processed_mono (db : DB) (e : Email) (i : String)
    (h : db.is_email_processed i = true) :
    (db.save_email e).is_email_processed i = true := by
  simp only [DB.is_email_processed, List.any_eq_true, decide_eq_true_eq] at h ⊢
  obtain ⟨x, hx, hxi⟩ := h
  simp only [DB.save_email]
  split
  · refine ⟨if x.id = e.id then e else x, List.mem_map_of_mem _ hx, ?_⟩
    by_cases hxe : x.id = e.id
    · rw [if_pos hxe, ← hxe]; exact hxi
    · rw [if_neg hxe]; exact hxi
  · exact ⟨x, List.mem_append_left _ hx, hxi⟩

theorem find_map_replace (l : List Email) (e : Email) (i : String) (h : ¬ e.id = i) :
    (l.map (fun x => if x.id = e.id then e else x)).find? (fun x => x.id = i) =
      l.find? (fun x => x.id = i) := by
  induction l with
  | nil => rfl
  | cons y ys ih =>
    by_cases hy : y.id = e.id
    · simp only [List.map_cons, if_pos hy, List.find?]
      have hyi : ¬ (y.id = i) := by rw [hy]; exact h
      simp [h, hyi, ih]
    · simp only [List.map_cons, if_neg hy, List.find?]
      by_cases hyi : y.id = i
      · simp [hyi]
      · simp [hyi, ih]

theorem get_email_save_ne (db : DB) (e : Email) (i : String) (h : ¬ e.id = i) :
    (db.save_email e).get_email i = db.get_email i := by
  simp only [DB.save_email, DB.get_email]
  split
  · exact find_map_replace db.emails e i h
  · induction db.emails with
    | nil => simp [List.find?, h]
    | cons y ys ih =>
      by_cases hyi : y.id = i
      · simp [List.find?, hyi]
      · simp [List.find?, hyi, ih]

theorem get_email_save_draft (db : DB) (d : DraftRow) (i : String) :
    (db.save_draft d).get_email i = db.get_email i := rfl

theorem is_email_processed_save_draft (db : DB) (d : DraftRow) (i : String) :
    (db.save_draft d).is_email_processed i = db.is_email_processed i := rfl

/-- The action executor keeps the processed record's id. -/
theorem categoryStep_record_id (gmail : Gmail) (db : DB) (m1 : Email)
    (cat : EmailCategory) (resp : Option String) (now : Nat) (fid : String) :
    (categoryStep gmail db m1 cat resp now fid).1.id = m1.id := by
  cases cat <;> simp only [categoryStep] <;>
    ((try split) <;> (try split) <;> rfl)

/-- Every effect emitted by the action executor concerns the processed
record. -/
theorem categoryStep_targets (gmail : Gmail) (db : DB) (m1 : Email)
    (cat : EmailCategory) (resp : Option String) (now : Nat) (fid : String) :
    ∀ eff ∈ (categoryStep gmail db m1 cat resp now fid).2.2,
      eff.target = some m1.id := by
  cases cat <;> simp only [categoryStep] <;>
    ((try split) <;> (try split) <;> simp [Effect.target])

/-- The action executor leaves the emails table, the retry queue and the
settings of the store untouched (it writes at most a Draft row). -/
theorem categoryStep_store (gmail : Gmail) (db : DB) (m1 : Email)
    (cat : EmailCategory) (resp : Option String) (now : Nat) (fid : String) :
    (categoryStep gmail db m1 cat resp now fid).2.1.emails = db.emails ∧
    (categoryStep gmail db m1 cat resp now fid).2.1.retry_queue = db.retry_queue ∧
    (categoryStep gmail db m1 cat resp now fid).2.1.settings = db.settings := by
  refine ⟨?_, ?_, ?_⟩ <;>
    (cases cat <;> simp only [categoryStep] <;>
      ((try split) <;> (try split) <;> rfl))

/-- Every effect emitted while processing one message concerns that message. -/
theorem process_single_email_targets (gmail : Gmail) (cls : Classifier) (db : DB)
    (m : Email) (now : Nat) (fid : String) :
    ∀ eff ∈ (process_single_email gmail cls db m now fid).2,
      eff.target = some m.id := by
  cases hc : cls.process_email m with
  | error e => simp [process_single_email, hc, Effect.target]
  | ok pr =>
    obtain ⟨cat, resp⟩ := pr
    intro eff heff
    simp only [process_single_email, hc, List.mem_cons, List.mem_append,
      List.mem_singleton] at heff
    rcases heff with h | h | h | h
    · subst h; rfl
    · exact categoryStep_targets gmail db (annotated m cat resp now)
        cat resp now fid eff h
    · rw [h]
      show some (categoryStep gmail db (annotated m cat resp now)
        cat resp now fid).1.id = some m.id
      rw [categoryStep_record_id]
      rfl
    · exact absurd h (List.not_mem_nil eff)

/-- Saving the action executor's record only rewrites that record. -/
theorem categoryStep_save_frame (gmail : Gmail) (db : DB) (m1 : Email)
    (cat : EmailCategory) (resp : Option String) (now : Nat) (fid : String) :
    ((categoryStep gmail db m1 cat resp now fid).2.1.save_email
        (categoryStep gmail db m1 cat resp now fid).1).retry_queue = db.retry_queue ∧
    (∀ i, ¬ m1.id = i →
      ((categoryStep gmail db m1 cat resp now fid).2.1.save_email
        (categoryStep gmail db m1 cat resp now fid).1).get_email i = db.get_email i) ∧
    (∀ i, db.is_email_processed i = true →
      ((categoryStep gmail db m1 cat resp now fid).2.1.save_email
        (categoryStep gmail db m1 cat resp now fid).1).is_email_processed i = true) := by
  obtain ⟨hem, hrq, _⟩ := categoryStep_store gmail db m1 cat resp now fid
  refine ⟨by rw [save_email_retry_queue, hrq], ?_, ?_⟩
  · intro i hi
    have hne : ¬ ((categoryStep gmail db m1 cat resp now fid).1.id = i) := by
      rw [categoryStep_record_id]; exact hi
    rw [get_email_save_ne _ _ _ hne]
    simp [DB.get_email, hem]
  · intro i hp
    apply is_email_processed_mono
    simpa [DB.is_email_processed, hem] using hp

/-- Processing one message only rewrites that message's record: the retry
queue and every other record are untouched, and record presence is
monotone. -/
theorem process_single_email_ok_frame (gmail : Gmail) (cls : Classifier) (db : DB)
    (m : Email) (now : Nat) (fid : String) (db2 : DB)
    (h : (process_single_email gmail cls db m now fid).1 = .ok db2) :
    db2.retry_queue = db.retry_queue ∧
    (∀ i, ¬ m.id = i → db2.get_email i = db.get_email i) ∧
    (∀ i, db.is_email_processed i = true → db2.is_email_processed i = true) := by
  cases hc : cls.process_email m with
  | error e => simp [process_single_email, hc] at h
  | ok pr =>
    obtain ⟨cat, resp⟩ := pr
    simp only [process_single_email, hc, Except.ok.injEq] at h
    subst h
    exact categoryStep_save_frame gmail db _ cat resp now fid

/-- The effect of saving the forced record concerns the failed message. -/
theorem forcedRecord_id (now : Nat) (m : Email) : (forcedRecord now m).id = m.id := rfl

/-- Frame property of the polling loop: a message id present in the store at
loop entry is never the subject of any effect, and its record is left
untouched. -/
theorem processLoop_frame (gmail : Gmail) (cls : Classifier) (now : Nat)
    (ids : Nat → String) (ms : List Email) (db : DB) (idx : Nat) (i : String)
    (h : db.is_email_processed i = true) :
    (∀ eff ∈ (processLoop gmail cls now ids ms db idx).2.2, ¬ eff.target = some i) ∧
    (processLoop gmail cls now ids ms db idx).1.get_email i = db.get_email i := by
  induction ms generalizing db idx with
  | nil => simp [processLoop]
  | cons m rest ih =>
    by_cases hp : db.is_email_processed m.id = true
    · have hred : processLoop gmail cls now ids (m :: rest) db idx =
          processLoop gmail cls now ids rest db idx := by
        simp [processLoop, hp]
      rw [hred]
      exact ih db idx h
    · have hmi : ¬ (m.id = i) := fun he => hp (by rw [he]; exact h)
      rcases hps : process_single_email gmail cls db m now (ids idx) with ⟨r, tr⟩
      have htr : ∀ eff ∈ tr, eff.target = some m.id := by
        have hh := process_single_email_targets gmail cls db m now (ids idx)
        rw [hps] at hh
        exact hh
      cases r with
      | ok db2 =>
        have hfr := process_single_email_ok_frame gmail cls db m now (ids idx) db2
          (by rw [hps])
        have h2 : db2.is_email_processed i = true := hfr.2.2 i h
        have hloop := ih db2 (idx + 1) h2
        have hred : processLoop gmail cls now ids (m :: rest) db idx =
            ((processLoop gmail cls now ids rest db2 (idx + 1)).1,
             (processLoop gmail cls now ids rest db2 (idx + 1)).2.1 + 1,
             tr ++ (processLoop gmail cls now ids rest db2 (idx + 1)).2.2) := by
          simp [processLoop, hp, hps]
        rw [hred]
        constructor
        · intro eff heff
          rcases List.mem_append.1 heff with h1 | h1
          · rw [htr eff h1]
            simp [hmi]
          · exact hloop.1 eff h1
        · show (processLoop gmail cls now ids rest db2 (idx + 1)).1.get_email i =
            db.get_email i
          rw [hloop.2, hfr.2.1 i hmi]
      | error err =>
        have h2 : (db.save_email (forcedRecord now m)).is_email_processed i = true :=
          is_email_processed_mono db _ i h
        have hloop := ih (db.save_email (forcedRecord now m)) (idx + 1) h2
        have hred : processLoop gmail cls now ids (m :: rest) db idx =
            ((processLoop gmail cls now ids rest
                (db.save_email (forcedRecord now m)) (idx + 1)).1,
             (processLoop gmail cls now ids rest
                (db.save_email (forcedRecord now m)) (idx + 1)).2.1 + 1,
             tr ++ [.save_email (forcedRecord now m)] ++
               (processLoop gmail cls now ids rest
                 (db.save_email (forcedRecord now m)) (idx + 1)).2.2) := by
          simp [processLoop, hp, hps]
        rw [hred]
        constructor
        · intro eff heff
          rcases List.mem_append.1 heff with h1 | h1
          · rcases List.mem_append.1 h1 with h2' | h2'
            · rw [htr eff h2']
              simp [hmi]
            · rw [List.mem_singleton.1 h2']
              show ¬ (some (forcedRecord now m).id = some i)
              rw [forcedRecord_id]
              simp [hmi]
          · exact hloop.1 eff h1
        · show (processLoop gmail cls now ids rest
              (db.save_email (forcedRecord now m)) (idx + 1)).1.get_email i =
            db.get_email i
          rw [hloop.2]
          exact get_email_save_ne db (forcedRecord now m) i hmi

/-- The row touched by `update_retry` keeps its id and gets the given attempt
info with status forced back to `'pending'`. -/
theorem update_retry_mem (db : DB) (rid : String) (ac : Nat) (er : String)
    (nr : Nat) (now : Nat) (item : RetryEntry) (hmem : item ∈ db.retry_queue)
    (hid : item.id = rid) :
    ∃ e ∈ (db.update_retry rid ac er nr now).1.retry_queue,
      e.id = item.id ∧ e.attempt_count = ac ∧ e.error_message = er ∧
      e.next_retry_at = nr ∧ e.last_attempted_at = some now ∧
      e.status = "pending" := by
  simp only [DB.update_retry]
  refine ⟨_, List.mem_map_of_mem _ hmem, ?_⟩
  rw [if_pos hid]
  exact ⟨rfl, rfl, rfl, rfl, rfl, rfl⟩

/-- The row touched by `update_retry_status` keeps everything but its status
and `last_attempted_at`. -/
theorem update_retry_status_mem (db : DB) (rid st : String) (now : Nat)
    (item : RetryEntry) (hmem : item ∈ db.retry_queue) (hid : item.id = rid) :
    ∃ e ∈ (db.update_retry_status rid st now).1.retry_queue,
      e.id = item.id ∧ e.status = st ∧ e.next_retry_at = item.next_retry_at ∧
      e.attempt_count = item.attempt_count := by
  simp only [DB.update_retry_status]
  refine ⟨_, List.mem_map_of_mem _ hmem, ?_⟩
  rw [if_pos hid]
  exact ⟨rfl, rfl, rfl, rfl⟩

theorem update_email_status_retry_queue (db : DB) (i : String) (st : EmailStatus)
    (r : Option String) (now : Nat) :
    (db.update_email_status i st r now).1.retry_queue = db.retry_queue := rfl

theorem update_email_status_drafts (db : DB) (i : String) (st : EmailStatus)
    (r : Option String) (now : Nat) :
    (db.update_email_status i st r now).1.drafts = db.drafts := rfl

theorem update_draft_status_emails (db : DB) (did st : String) :
    (db.update_draft_status did st).1.emails = db.emails := rfl

theorem update_draft_status_retry_queue (db : DB) (did st : String) :
    (db.update_draft_status did st).1.retry_queue = db.retry_queue := rfl

/-- `update_email_status` with a falsy `ai_response` leaves every record's
`ai_response` unchanged. -/
theorem update_email_status_none_keeps_response (db : DB) (i : String)
    (st : EmailStatus) (now : Nat) :
    (db.update_email_status i st none now).1.emails.map Email.ai_response =
      db.emails.map Email.ai_response := by
  simp only [DB.update_email_status]
  rw [List.map_map]
  apply List.map_congr_left
  intro x hx
  by_cases hxi : x.id = i
  · simp [hxi, strTruthy]
  · simp [hxi]

/-- The record touched by `update_email_status` with a falsy response gets
the new status and timestamp and keeps its other fields. -/
theorem update_email_status_none_mem (db : DB) (i : String) (st : EmailStatus)
    (now : Nat) (em : Email) (hmem : em ∈ db.emails) (hid : em.id = i) :
    { em with status := st, processed_at := some now }
      ∈ (db.update_email_status i st none now).1.emails := by
  simp only [DB.update_email_status]
  refine List.mem_map.2 ⟨em, hmem, ?_⟩
  rw [if_pos hid]
  rfl

/-- The draft row touched by `update_draft_status` gets the new status. -/
theorem update_draft_status_mem (db : DB) (did st : String) (d : DraftRow)
    (hmem : d ∈ db.drafts) (hid : d.id = did) :
    { d with status := st } ∈ (db.update_draft_status did st).1.drafts := by
  simp only [DB.update_draft_status]
  refine List.mem_map.2 ⟨d, hmem, ?_⟩
  rw [if_pos hid]

/-- The action executor keeps the record's `ai_response`. -/
theorem categoryStep_ai_response (gmail : Gmail) (db : DB) (m1 : Email)
    (cat : EmailCategory) (resp : Option String) (now : Nat) (fid : String) :
    (categoryStep gmail db m1 cat resp now fid).1.ai_response = m1.ai_response := by
  cases cat <;> simp only [categoryStep] <;>
    ((try split) <;> (try split) <;> rfl)

/-- The action executor keeps the record's `category`. -/
theorem categoryStep_category (gmail : Gmail) (db : DB) (m1 : Email)
    (cat : EmailCategory) (resp : Option String) (now : Nat) (fid : String) :
    (categoryStep gmail db m1 cat resp now fid).1.category = m1.category := by
  cases cat <;> simp only [categoryStep] <;>
    ((try split) <;> (try split) <;> rfl)

/-- The action executor keeps the record's `processed_at`. -/
theorem categoryStep_processed_at (gmail : Gmail) (db : DB) (m1 : Email)
    (cat : EmailCategory) (resp : Option String) (now : Nat) (fid : String) :
    (categoryStep gmail db m1 cat resp now fid).1.processed_at = m1.processed_at := by
  cases cat <;> simp only [categoryStep] <;>
    ((try split) <;> (try split) <;> rfl)

/-- The action executor itself never persists a Message Record. -/
theorem categoryStep_no_save_email (gmail : Gmail) (db : DB) (m1 : Email)
    (cat : EmailCategory) (resp : Option String) (now : Nat) (fid : String) :
    ∀ e, ¬ Effect.save_email e ∈ (categoryStep gmail db m1 cat resp now fid).2.2 := by
  cases cat <;> simp only [categoryStep] <;>
    ((try split) <;> (try split) <;> simp)

/-- The polling loop never touches the retry queue. -/
theorem processLoop_retry_queue (gmail : Gmail) (cls : Classifier) (now : Nat)
    (ids : Nat → String) (ms : List Email) (db : DB) (idx : Nat) :
    (processLoop gmail cls now ids ms db idx).1.retry_queue = db.retry_queue := by
  induction ms generalizing db idx with
  | nil => rfl
  | cons m rest ih =>
    by_cases hp : db.is_email_processed m.id = true
    · have hred : processLoop gmail cls now ids (m :: rest) db idx =
          processLoop gmail cls now ids rest db idx := by
        simp [processLoop, hp]
      rw [hred]
      exact ih db idx
    · rcases hps : process_single_email gmail cls db m now (ids idx) with ⟨r, tr⟩
      cases r with
      | ok db2 =>
        have hfr := (process_single_email_ok_frame gmail cls db m now (ids idx) db2
          (by rw [hps])).1
        have hred : (processLoop gmail cls now ids (m :: rest) db idx).1 =
            (processLoop gmail cls now ids rest db2 (idx + 1)).1 := by
          simp [processLoop, hp, hps]
        rw [hred, ih db2 (idx + 1), hfr]
      | error err =>
        have hred : (processLoop gmail cls now ids (m :: rest) db idx).1 =
            (processLoop gmail cls now ids rest
              (db.save_email (forcedRecord now m)) (idx + 1)).1 := by
          simp [processLoop, hp, hps]
        rw [hred, ih _ (idx + 1), save_email_retry_queue]

/-- The bulk-reply loop never touches the retry queue. -/
theorem bulkReplyLoop_retry_queue (gmail : Gmail) (resp : String) (now : Nat)
    (ids : List String) (db : DB) :
    (bulkReplyLoop gmail resp now ids db).1.retry_queue = db.retry_queue := by
  induction ids generalizing db with
  | nil => rfl
  | cons i rest ih =>
    cases hg : db.get_email i with
    | none => simp [bulkReplyLoop, hg, ih]
    | some email =>
      cases hr : gmail.reply_to_email email resp with
      | none => simp [bulkReplyLoop, hg, hr, ih]
      | some mid =>
        have hred : (bulkReplyLoop gmail resp now (i :: rest) db).1 =
            (bulkReplyLoop gmail resp now rest
              (db.update_email_status i .replied (some resp) now).1).1 := by
          simp [bulkReplyLoop, hg, hr]
        rw [hred, ih, update_email_status_retry_queue]

/-- Every entry of the backoff table is at least one minute. -/
theorem backoff_pos : ∀ j, j ≤ 4 → 1 ≤ BACKOFF_MINUTES.getD j 0 := by decide

@[simp]
theorem annotated_id (m : Email) (cat : EmailCategory) (resp : Option String)
    (now : Nat) : (annotated m cat resp now).id = m.id := rfl

/-! ### Claims -/

/-- C5: when a due pending retry entry fails an attempt and
`attempt_count + 1 >= max_attempts`, its status becomes `failed`, its
`next_retry_at` is left unchanged, and an entry with status `failed` is never
selected by the due-sweep, in any store and at any time (even with
`next_retry_at` in the past). -/
theorem retry_exhaustion_terminal (gmail : Gmail) (db : DB) (item : RetryEntry)
    (now : Nat) (err : String)
    (hfail : retry_attempt gmail db item now = .error err)
    (hmax : item.max_attempts ≤ item.attempt_count + 1)
    (hmem : item ∈ db.retry_queue) :
    ∃ e ∈ (retry_single gmail db item now).retry_queue,
      e.id = item.id ∧ e.status = "failed" ∧
      e.next_retry_at = item.next_retry_at ∧
      ∀ (d : DB) (t : Nat), ¬ e ∈ d.get_due_retries t := by
  have hred : retry_single gmail db item now =
      (db.update_retry_status item.id "failed" now).1 := by
    simp [retry_single, hfail, hmax]
  obtain ⟨e, he, hid, hst, hnr, hac⟩ :=
    update_retry_status_mem db item.id "failed" now item hmem rfl
  refine ⟨e, by rw [hred]; exact he, hid, hst, hnr, ?_⟩
  intro d t hdue
  rw [mem_get_due_retries] at hdue
  have h2 := hdue.2
  simp only [DB.retryDue, Bool.and_eq_true, decide_eq_true_eq] at h2
  rw [hst] at h2
  exact absurd h2.1 (by decide)

/-- C5 witness: the last-attempt entry `rLast` (4 of 5 attempts used) failing
again at time 9 ends up `failed` with `next_retry_at` still 3 and out of every
future due-sweep. -/
theorem retry_exhaustion_terminal_witness :
    ∃ e ∈ (retry_single gmailFail dbRetry rLast 9).retry_queue,
      e.id = rLast.id ∧ e.status = "failed" ∧
      e.next_retry_at = rLast.next_retry_at ∧
      ∀ (d : DB) (t : Nat), ¬ e ∈ d.get_due_retries t :=
  retry_exhaustion_terminal gmailFail dbRetry rLast 9 "send_email returned None"
    rfl (by decide) (by decide)

/-- C6: a failed attempt on a due entry with `attempt_count + 1 <
max_attempts` sets `attempt_count` to `k + 1` and `next_retry_at` to the
attempt time plus `BACKOFF_MINUTES[min (k + 1) 4]`, strictly after the
previous `next_retry_at`; a newly enqueued entry gets
`next_retry_at = now + 1` with `attempt_count = 0`. -/
theorem retry_backoff_monotone (gmail : Gmail) (db : DB) (item : RetryEntry)
    (now : Nat) (err : String)
    (hfail : retry_attempt gmail db item now = .error err)
    (hlt : item.attempt_count + 1 < item.max_attempts)
    (hdue : item ∈ db.get_due_retries now) :
    (∃ e ∈ (retry_single gmail db item now).retry_queue,
       e.id = item.id ∧ e.status = "pending" ∧
       e.attempt_count = item.attempt_count + 1 ∧
       e.next_retry_at =
         now + BACKOFF_MINUTES.getD (min (item.attempt_count + 1) 4) 0 ∧
       item.next_retry_at < e.next_retry_at) ∧
    (∀ (d : DB) (rid eid act : String) (p : RetryPayload) (er : String)
       (ma t : Nat),
       ∃ en ∈ (d.add_retry rid eid act p er ma t).retry_queue,
         en.id = rid ∧ en.attempt_count = 0 ∧ en.next_retry_at = t + 1 ∧
         en.status = "pending") := by
  have hmem : item ∈ db.retry_queue := (mem_get_due_retries.1 hdue).1
  have hdueb := (mem_get_due_retries.1 hdue).2
  simp only [DB.retryDue, Bool.and_eq_true, decide_eq_true_eq] at hdueb
  constructor
  · have hnle : ¬ (item.max_attempts ≤ item.attempt_count + 1) := by omega
    have hred : retry_single gmail db item now =
        (db.update_retry item.id (item.attempt_count + 1) err
          (now + BACKOFF_MINUTES.getD (min (item.attempt_count + 1) 4) 0)
          now).1 := by
      simp [retry_single, hfail, hnle, BACKOFF_MINUTES]
    obtain ⟨e, he, hid, hac, herr2, hnr, hla, hst⟩ :=
      update_retry_mem db item.id (item.attempt_count + 1) err
        (now + BACKOFF_MINUTES.getD (min (item.attempt_count + 1) 4) 0)
        now item hmem rfl
    refine ⟨e, by rw [hred]; exact he, hid, hst, hac, hnr, ?_⟩
    have hb := backoff_pos (min (item.attempt_count + 1) 4) (by omega)
    rw [hnr]
    have hle := hdueb.2
    omega
  · intro d rid eid act p er ma t
    exact ⟨{ id := rid, email_id := eid, action := act, payload := p, error_message := er, attempt_count := 0, max_attempts := ma, next_retry_at := t + 1, status := "pending" },
      by simp [DB.add_retry], rfl, rfl, rfl, rfl⟩

/-- C6 witness: entry `rEarly` (`attempt_count = 1`, due since time 3)
failing at time 9 moves to `attempt_count = 2` and
`next_retry_at = 9 + BACKOFF_MINUTES[2]`, strictly after 3. -/
theorem retry_backoff_monotone_witness :
    (∃ e ∈ (retry_single gmailFail dbRetry rEarly 9).retry_queue,
       e.id = rEarly.id ∧ e.status = "pending" ∧
       e.attempt_count = rEarly.attempt_count + 1 ∧
       e.next_retry_at =
         9 + BACKOFF_MINUTES.getD (min (rEarly.attempt_count + 1) 4) 0 ∧
       rEarly.next_retry_at < e.next_retry_at) ∧
    (∀ (d : DB) (rid eid act : String) (p : RetryPayload) (er : String)
       (ma t : Nat),
       ∃ en ∈ (d.add_retry rid eid act p er ma t).retry_queue,
         en.id = rid ∧ en.attempt_count = 0 ∧ en.next_retry_at = t + 1 ∧
         en.status = "pending") :=
  retry_backoff_monotone gmailFail dbRetry rEarly 9 "send_email returned None"
    rfl (by decide) (by decide)

/-- C10: `manual_retry` on any existing entry — whatever its status,
including terminal `succeeded` and `failed` — resets `attempt_count` to 0,
`next_retry_at` to now and status to `pending`, so every sweep from `now` on
selects it again; it returns `false` exactly when no entry with that id
exists. -/
theorem manual_retry_resets (db : DB) (retry_id : String) (now : Nat) :
    ((manual_retry db retry_id now).2 = false ↔
      ∀ e ∈ db.retry_queue, ¬ e.id = retry_id) ∧
    (∀ item ∈ db.retry_queue, item.id = retry_id →
      ∃ e ∈ (manual_retry db retry_id now).1.retry_queue,
        e.id = retry_id ∧ e.attempt_count = 0 ∧ e.next_retry_at = now ∧
        e.status = "pending" ∧
        ∀ t, now ≤ t → e ∈ (manual_retry db retry_id now).1.get_due_retries t) := by
  constructor
  · constructor
    · intro h e he hid
      have htrue : (manual_retry db retry_id now).2 = true := by
        show (db.retry_queue.any fun e => e.id = retry_id) = true
        exact List.any_eq_true.2 ⟨e, he, by simp [hid]⟩
      rw [h] at htrue
      exact absurd htrue (by decide)
    · intro hall
      show (db.retry_queue.any fun e => e.id = retry_id) = false
      cases hb : (db.retry_queue.any fun e => e.id = retry_id) with
      | false => rfl
      | true =>
        obtain ⟨e, he, hp⟩ := List.any_eq_true.1 hb
        exact absurd (of_decide_eq_true hp) (hall e he)
  · intro item hmem hid
    obtain ⟨e, he, hid2, hac, herr, hnr, hla, hst⟩ :=
      update_retry_mem db retry_id 0 "Manual retry triggered" now now item hmem hid
    refine ⟨e, he, by rw [hid2, hid], hac, hnr, hst, ?_⟩
    intro t ht
    rw [mem_get_due_retries]
    exact ⟨he, by simp [DB.retryDue, hst, hnr, ht]⟩

/-- C10 witness: manually retrying the terminally failed entry `rFailed`
re-queues it as `pending` with `attempt_count = 0`, due from time 11 on. -/
theorem manual_retry_resets_witness :
    ∃ e ∈ (manual_retry dbRetry "r3" 11).1.retry_queue,
      e.id = "r3" ∧ e.attempt_count = 0 ∧ e.next_retry_at = 11 ∧
      e.status = "pending" ∧
      ∀ t, 11 ≤ t → e ∈ (manual_retry dbRetry "r3" 11).1.get_due_retries t :=
  (manual_retry_resets dbRetry "r3" 11).2 rFailed (by decide) rfl

/-- C2 counterexample: at a concrete store and a provider whose sends fail,
each request-initiated action (manual reply, draft approval, bulk reply)
reports the failure but enqueues no Retry Entry — the retry queue stays
empty, contradicting the claim that such failures enqueue one. -/
theorem request_send_failure_no_retry_cex :
    (reply_to_email_route gmailFail dbWithDraft "m1" (some "Hi!") 8).1 =
      .error (500, "Failed to send reply") ∧
    (reply_to_email_route gmailFail dbWithDraft "m1" (some "Hi!") 8).2.retry_queue = [] ∧
    (approve_draft_route gmailFail dbWithDraft "d1" 8).1 =
      .error (500, "Failed to send draft") ∧
    (approve_draft_route gmailFail dbWithDraft "d1" 8).2.retry_queue = [] ∧
    (bulk_reply_route gmailFail dbWithDraft ["m1"] "Hi!" 8).1 = .ok (0, 1) ∧
    (bulk_reply_route gmailFail dbWithDraft ["m1"] "Hi!" 8).2.retry_queue = [] :=
  ⟨rfl, rfl, rfl, rfl, rfl, rfl⟩

/-- C2 (amended): send failures are never escalated to the Retry Queue at
all — neither by the live polling cycle nor by the request-initiated actions
(manual reply, draft approval, bulk reply); every one of these paths leaves
the retry queue exactly as it was. -/
theorem no_retry_escalation (gmail : Gmail) (cls : Classifier) (db : DB)
    (now : Nat) (ids : Nat → String) (email_id : String)
    (resp_field : Option String) (draft_id : String) (bulk_ids : List String)
    (bulk_resp : String) :
    (process_new_emails gmail cls db now ids).1.retry_queue = db.retry_queue ∧
    (reply_to_email_route gmail db email_id resp_field now).2.retry_queue =
      db.retry_queue ∧
    (approve_draft_route gmail db draft_id now).2.retry_queue = db.retry_queue ∧
    (bulk_reply_route gmail db bulk_ids bulk_resp now).2.retry_queue =
      db.retry_queue := by
  refine ⟨?_, ?_, ?_, ?_⟩
  · exact processLoop_retry_queue gmail cls now ids (gmail.get_unread_emails 20) db 0
  · simp only [reply_to_email_route]
    split
    · rfl
    · split
      · rfl
      · split
        · rfl
        · rfl
  · simp only [approve_draft_route]
    split
    · rfl
    · split
      · rfl
      · split
        · rfl
        · rfl
  · simp only [bulk_reply_route]
    split
    · rfl
    · split
      · rfl
      · exact bulkReplyLoop_retry_queue gmail bulk_resp now bulk_ids db

/-- C1 counterexample: with the classifier generating a response and the
provider send failing, the pipeline saves a record with
`status = manual_required` and a non-null `ai_response` that is neither the
operator-dismissal sentinel nor the initialization sentinel — contradicting
the invariant that a `manual_required` record has a null `ai_response`
unless operator-dismissed. -/
theorem manual_required_nonnull_response_cex :
    ((process_single_email gmailFail clsAuto dbEmpty mSample 5 "d9").1.toOption.bind
        (fun d => d.get_email "m1")).map (fun e => (e.status, e.ai_response)) =
      some (.manual_required, some "Hello back") ∧
    ¬ ((some "Hello back" : Option String) = none) ∧
    ¬ ("Hello back" = dismissSentinel) ∧ ¬ ("Hello back" = initSentinel) :=
  ⟨rfl, by decide, by decide, by decide⟩

/-- C1 (amended): a `manual_required` record keeps the classifier-generated
response: whatever the routing outcome, the record persisted by
`process_single_email` carries exactly the generated `ai_response` (null only
when generation produced nothing), and draft discard reverts the owning
record to `manual_required` without nulling any stored `ai_response`. -/
theorem manual_required_keeps_generated_response (gmail : Gmail)
    (cls : Classifier) (db : DB) (m : Email) (now : Nat) (fid : String)
    (cat : EmailCategory) (resp : Option String)
    (h : cls.process_email m = .ok (cat, resp)) :
    (∀ e, Effect.save_email e ∈ (process_single_email gmail cls db m now fid).2 →
       e.ai_response = resp) ∧
    (∀ (db2 : DB) (did : String) (t : Nat),
       (discard_draft_route gmail db2 did t).2.emails.map Email.ai_response =
         db2.emails.map Email.ai_response) := by
  constructor
  · intro e he
    simp only [process_single_email, h, List.mem_cons, List.mem_append,
      List.mem_singleton] at he
    rcases he with he | he | he | he
    · exact absurd he (by simp)
    · exact absurd he
        (categoryStep_no_save_email gmail db (annotated m cat resp now) cat resp now fid e)
    · simp only [Effect.save_email.injEq] at he
      subst he
      rw [categoryStep_ai_response]
      rfl
    · exact absurd he (List.not_mem_nil _)
  · intro db2 did t
    simp only [discard_draft_route]
    split
    · rfl
    · rw [update_email_status_none_keeps_response, update_draft_status_emails]

/-- C1 amended witness: the `auto_reply`-with-failing-send case keeps
`ai_response = some "Hello back"` on the saved record. -/
theorem manual_required_keeps_generated_response_witness :
    (∀ e, Effect.save_email e ∈
        (process_single_email gmailFail clsAuto dbEmpty mSample 5 "d9").2 →
       e.ai_response = some "Hello back") ∧
    (∀ (db2 : DB) (did : String) (t : Nat),
       (discard_draft_route gmailFail db2 did t).2.emails.map Email.ai_response =
         db2.emails.map Email.ai_response) :=
  manual_required_keeps_generated_response gmailFail clsAuto dbEmpty mSample 5
    "d9" .auto_reply (some "Hello back") rfl

/-- C7: if processing a single message raises, the cycle does not abort: the
message is saved with category `pending_manual`, status `manual_required` and
a processed timestamp, the loop continues with the remaining messages, and
the failed message still counts into the returned processed count. -/
theorem cycle_failure_isolation (gmail : Gmail) (cls : Classifier) (now : Nat)
    (ids : Nat → String) (m : Email) (rest : List Email) (db : DB) (idx : Nat)
    (err : String)
    (hnew : db.is_email_processed m.id = false)
    (herr : cls.process_email m = .error err) :
    (forcedRecord now m).category = some .pending_manual ∧
    (forcedRecord now m).status = .manual_required ∧
    (forcedRecord now m).processed_at = some now ∧
    processLoop gmail cls now ids (m :: rest) db idx =
      ((processLoop gmail cls now ids rest
          (db.save_email (forcedRecord now m)) (idx + 1)).1,
       (processLoop gmail cls now ids rest
          (db.save_email (forcedRecord now m)) (idx + 1)).2.1 + 1,
       .classify m.id :: .save_email (forcedRecord now m) ::
         (processLoop gmail cls now ids rest
           (db.save_email (forcedRecord now m)) (idx + 1)).2.2) := by
  refine ⟨rfl, rfl, rfl, ?_⟩
  simp [processLoop, hnew, process_single_email, herr]

/-- C7 witness: a classifier raising `"boom"` on `mSample` still yields a
cycle step that force-saves the record and counts it. -/
theorem cycle_failure_isolation_witness :
    (forcedRecord 5 mSample).category = some .pending_manual ∧
    (forcedRecord 5 mSample).status = .manual_required ∧
    (forcedRecord 5 mSample).processed_at = some 5 ∧
    processLoop gmailFail clsBoom 5 (fun _ => "d") [mSample] dbEmpty 0 =
      ((processLoop gmailFail clsBoom 5 (fun _ => "d") []
          (dbEmpty.save_email (forcedRecord 5 mSample)) 1).1,
       (processLoop gmailFail clsBoom 5 (fun _ => "d") []
          (dbEmpty.save_email (forcedRecord 5 mSample)) 1).2.1 + 1,
       .classify mSample.id :: .save_email (forcedRecord 5 mSample) ::
         (processLoop gmailFail clsBoom 5 (fun _ => "d") []
           (dbEmpty.save_email (forcedRecord 5 mSample)) 1).2.2) :=
  cycle_failure_isolation gmailFail clsBoom 5 (fun _ => "d") mSample [] dbEmpty
    0 "boom" rfl rfl

/-- The store left by `initialize_system` always carries the
`system_initialized = "true"` flag. -/
theorem initialize_system_flag (gmail : Gmail) (db : DB) (now : Nat) :
    (initialize_system gmail db now).1.get_setting "system_initialized" =
      some "true" := by
  by_cases h : db.get_setting "system_initialized" = some "true"
  · simp [initialize_system, h]
  · simp only [initialize_system, if_neg h]
    rw [get_setting_set_ne _ _ _ _ (by decide), get_setting_set_same]

/-- `initialize_system` is a no-op once the flag is set. -/
theorem initialize_system_noop (g : Gmail) (d : DB) (t : Nat)
    (h : d.get_setting "system_initialized" = some "true") :
    initialize_system g d t = (d, 0, []) := by
  simp [initialize_system, h]

/-- C8: the initialization sweep is one-shot. With the flag set it returns 0
and fetches and writes nothing; otherwise it saves each of the up-to-100
fetched unread messages with status `replied`, the sentinel response and a
processed timestamp, emitting only fetch/save effects (no classification),
and sets the flag; any re-invocation is then a no-op; resetting the flag via
the manual-initialize route runs exactly one more full sweep. -/
theorem init_sweep_one_shot (gmail gmail2 : Gmail) (db : DB) (now now2 : Nat) :
    (db.get_setting "system_initialized" = some "true" →
      initialize_system gmail db now = (db, 0, [])) ∧
    (¬ db.get_setting "system_initialized" = some "true" →
      (initialize_system gmail db now).2.1 = (gmail.get_unread_emails 100).length ∧
      (∀ e ∈ gmail.get_unread_emails 100,
        .save_email (initSweepRecord now e) ∈ (initialize_system gmail db now).2.2 ∧
        (initSweepRecord now e).status = .replied ∧
        (initSweepRecord now e).ai_response = some initSentinel ∧
        (initSweepRecord now e).processed_at = some now) ∧
      (∀ eff ∈ (initialize_system gmail db now).2.2,
        eff = .fetch_unread 100 ∨ eff.isSaveEmail = true)) ∧
    (initialize_system gmail db now).1.get_setting "system_initialized" =
      some "true" ∧
    initialize_system gmail2 (initialize_system gmail db now).1 now2 =
      ((initialize_system gmail db now).1, 0, []) ∧
    ((manual_initialize_route gmail db now).2.1 =
        (gmail.get_unread_emails 100).length ∧
      initialize_system gmail2 (manual_initialize_route gmail db now).1 now2 =
        ((manual_initialize_route gmail db now).1, 0, [])) := by
  refine ⟨fun h => initialize_system_noop gmail db now h, ?_,
    initialize_system_flag gmail db now,
    initialize_system_noop gmail2 _ now2 (initialize_system_flag gmail db now),
    ?_,
    initialize_system_noop gmail2 _ now2 (initialize_system_flag gmail
      (db.set_setting "system_initialized" "false") now)⟩
  · intro h
    refine ⟨?_, ?_, ?_⟩
    · simp [initialize_system, if_neg h]
    · intro e he
      refine ⟨?_, rfl, rfl, rfl⟩
      simp only [initialize_system, if_neg h]
      exact List.mem_cons_of_mem _ (List.mem_map_of_mem _ he)
    · intro eff heff
      simp only [initialize_system, if_neg h, List.mem_cons] at heff
      rcases heff with he | he
      · exact Or.inl he
      · right
        obtain ⟨e, _, hee⟩ := List.mem_map.1 he
        rw [← hee]
        rfl
  · have hf : ¬ ((db.set_setting "system_initialized" "false").get_setting
        "system_initialized" = some "true") := by
      rw [get_setting_set_same]
      decide
    simp [manual_initialize_route, initialize_system, if_neg hf]

/-- C8 witness: with the flag already set, the sweep returns 0 and leaves the
store untouched. -/
theorem init_sweep_one_shot_witness :
    initialize_system gmailOk dbFlagged 4 = (dbFlagged, 0, []) :=
  (init_sweep_one_shot gmailOk gmailFail dbFlagged 4 6).1 rfl

/-- C9: approving a draft requires existence (else 404 and no mutation) and
`pending` status (else 400 and no mutation); a null provider send raises a
500 with both the Draft row and the Message Record unchanged (the call is
safe to retry); on success the Draft becomes `approved` and the owning
Message Record becomes `replied`. -/
theorem approve_draft_preconditions (gmail : Gmail) (db : DB)
    (draft_id : String) (now : Nat) :
    (db.get_draft draft_id = none →
      approve_draft_route gmail db draft_id now =
        (.error (404, "Draft not found"), db)) ∧
    (∀ d, db.get_draft draft_id = some d → ¬ d.status = "pending" →
      approve_draft_route gmail db draft_id now =
        (.error (400, "Draft is not pending"), db)) ∧
    (∀ d, db.get_draft draft_id = some d → d.status = "pending" →
      gmail.send_draft d.gmail_draft_id = none →
      approve_draft_route gmail db draft_id now =
        (.error (500, "Failed to send draft"), db)) ∧
    (∀ d mid, db.get_draft draft_id = some d → d.status = "pending" →
      gmail.send_draft d.gmail_draft_id = some mid →
      (approve_draft_route gmail db draft_id now).1 = .ok mid ∧
      { d with status := "approved" } ∈
        (approve_draft_route gmail db draft_id now).2.drafts ∧
      (∀ em ∈ db.emails, em.id = d.email_id →
        { em with status := .replied, processed_at := some now } ∈
          (approve_draft_route gmail db draft_id now).2.emails)) := by
  refine ⟨?_, ?_, ?_, ?_⟩
  · intro h
    simp [approve_draft_route, h]
  · intro d hd hst
    simp [approve_draft_route, hd, hst]
  · intro d hd hst hsend
    simp [approve_draft_route, hd, hst, hsend]
  · intro d mid hd hst hsend
    have hmemd : d ∈ db.drafts := List.mem_of_find?_eq_some hd
    have hidd : d.id = draft_id := by
      have hp := List.find?_some hd
      simpa using hp
    have hred : approve_draft_route gmail db draft_id now =
        (.ok mid, ((db.update_draft_status draft_id "approved").1.update_email_status
          d.email_id .replied none now).1) := by
      simp [approve_draft_route, hd, hst, hsend]
    rw [hred]
    refine ⟨rfl, ?_, ?_⟩
    · show _ ∈ ((db.update_draft_status draft_id "approved").1.update_email_status
        d.email_id .replied none now).1.drafts
      rw [update_email_status_drafts]
      exact update_draft_status_mem db draft_id "approved" d hmemd hidd
    · intro em hmem hid
      apply update_email_status_none_mem
      · rw [update_draft_status_emails]
        exact hmem
      · exact hid

/-- C9 witness: approving the pending draft `dSample` with a succeeding
provider marks it `approved` and the owning record `replied`. -/
theorem approve_draft_preconditions_witness :
    (approve_draft_route gmailOk dbWithDraft "d1" 7).1 = .ok "sent-2" ∧
    { dSample with status := "approved" } ∈
      (approve_draft_route gmailOk dbWithDraft "d1" 7).2.drafts ∧
    (∀ em ∈ dbWithDraft.emails, em.id = dSample.email_id →
      { em with status := .replied, processed_at := some 7 } ∈
        (approve_draft_route gmailOk dbWithDraft "d1" 7).2.emails) :=
  (approve_draft_preconditions gmailOk dbWithDraft "d1" 7).2.2.2 dSample "sent-2"
    rfl rfl rfl

/-- C3: for every message id already present in the Record Store, the
processing cycle emits no effect for that id at all — in particular no
provider send, draft or mark-read call — and leaves the stored record (hence
its category and status) unchanged. -/
theorem cycle_idempotent_frame (gmail : Gmail) (cls : Classifier) (db : DB)
    (now : Nat) (ids : Nat → String) (i : String)
    (h : db.is_email_processed i = true) :
    (∀ eff ∈ (process_new_emails gmail cls db now ids).2.2,
       ¬ eff.target = some i) ∧
    (process_new_emails gmail cls db now ids).1.get_email i = db.get_email i ∧
    ((process_new_emails gmail cls db now ids).1.get_email i).map
        (fun e => (e.category, e.status)) =
      (db.get_email i).map (fun e => (e.category, e.status)) := by
  have hl := processLoop_frame gmail cls now ids (gmail.get_unread_emails 20) db 0 i h
  simp only [process_new_emails]
  refine ⟨?_, hl.2, by rw [hl.2]⟩
  intro eff heff
  rcases List.mem_cons.1 heff with he | he
  · rw [he]
    simp [Effect.target]
  · exact hl.1 eff he

/-- C3 witness: with `mSample` already recorded, a cycle over an inbox
containing it emits no effect for `"m1"` and leaves its record unchanged. -/
theorem cycle_idempotent_frame_witness :
    (∀ eff ∈ (process_new_emails gmailOk clsAuto dbWithM1 7 (fun _ => "d")).2.2,
       ¬ eff.target = some "m1") ∧
    (process_new_emails gmailOk clsAuto dbWithM1 7 (fun _ => "d")).1.get_email "m1" =
      dbWithM1.get_email "m1" ∧
    ((process_new_emails gmailOk clsAuto dbWithM1 7 (fun _ => "d")).1.get_email "m1").map
        (fun e => (e.category, e.status)) =
      (dbWithM1.get_email "m1").map (fun e => (e.category, e.status)) :=
  cycle_idempotent_frame gmailOk clsAuto dbWithM1 7 (fun _ => "d") "m1" rfl

/-- C4: for every new message (classifier returns `(cat, resp)`), exactly one
category action fires and the record is persisted exactly once, carrying
`(category, status, ai_response, processed_at)`. `auto_reply`/`rag_reply`
yield `replied` exactly on a successful send (marking the original read) and
`manual_required` otherwise; `draft_review` yields `draft` exactly on a
successful `create_draft` (persisting exactly one Draft row) and
`manual_required` with no Draft row otherwise; `pending_manual` yields
`manual_required` with no provider call; no category leaves the status at its
initial `pending`. -/
theorem category_action_table (gmail : Gmail) (cls : Classifier) (db : DB)
    (m : Email) (now : Nat) (fid : String) (cat : EmailCategory)
    (resp : Option String)
    (h : cls.process_email m = .ok (cat, resp)) :
    ∃ db2 m2,
      (process_single_email gmail cls db m now fid).1 = .ok db2 ∧
      (process_single_email gmail cls db m now fid).2.filter Effect.isSaveEmail =
        [.save_email m2] ∧
      m2.id = m.id ∧ m2.category = some cat ∧ m2.ai_response = resp ∧
      m2.processed_at = some now ∧ ¬ m2.status = .pending ∧
      (cat = .pending_manual → m2.status = .manual_required ∧
        ∀ eff ∈ (process_single_email gmail cls db m now fid).2,
          eff.isProviderCall = false) ∧
      ((cat = .auto_reply ∨ cat = .rag_reply) →
        (m2.status = .replied ∨ m2.status = .manual_required) ∧
        (m2.status = .replied ↔ strTruthy resp = true ∧
          ¬ gmail.reply_to_email (annotated m cat resp now) (resp.getD "") = none) ∧
        (m2.status = .replied →
          .mark_read m.id ∈ (process_single_email gmail cls db m now fid).2)) ∧
      (cat = .draft_review →
        (m2.status = .draft ∨ m2.status = .manual_required) ∧
        (m2.status = .draft ↔ strTruthy resp = true ∧
          ¬ gmail.create_draft (draftReplyFor (annotated m cat resp now)
              (resp.getD "")) = none) ∧
        (m2.status = .draft →
          ((process_single_email gmail cls db m now fid).2.filter
            Effect.isSaveDraft).length = 1 ∧
          db2.drafts.length = db.drafts.length + 1) ∧
        (m2.status = .manual_required →
          (process_single_email gmail cls db m now fid).2.filter
            Effect.isSaveDraft = [] ∧
          db2.drafts = db.drafts)) := by
  cases cat with
  | auto_reply =>
    by_cases ht : strTruthy resp = true
    · cases hr : gmail.reply_to_email (annotated m .auto_reply resp now) (resp.getD "") with
      | some mid =>
        refine ⟨db.save_email { annotated m .auto_reply resp now with status := .replied },
            { annotated m .auto_reply resp now with status := .replied },
            by simp [process_single_email, h, categoryStep, ht, hr],
            by simp [process_single_email, h, categoryStep, ht, hr, Effect.isSaveEmail],
            rfl, rfl, rfl, rfl, by simp, ?_, ?_, ?_⟩
        · intro hcat
          exact absurd hcat (by decide)
        · intro _
          refine ⟨Or.inl rfl, by simp [ht, hr], ?_⟩
          intro _
          simp [process_single_email, h, categoryStep, ht, hr]
        · intro hcat
          exact absurd hcat (by decide)
      | none =>
        refine ⟨db.save_email { annotated m .auto_reply resp now with status := .manual_required },
            { annotated m .auto_reply resp now with status := .manual_required },
            by simp [process_single_email, h, categoryStep, ht, hr],
            by simp [process_single_email, h, categoryStep, ht, hr, Effect.isSaveEmail],
            rfl, rfl, rfl, rfl, by simp, ?_, ?_, ?_⟩
        · intro hcat
          exact absurd hcat (by decide)
        · intro _
          refine ⟨Or.inr rfl, by simp [hr], ?_⟩
          intro hx
          simp at hx
        · intro hcat
          exact absurd hcat (by decide)
    · refine ⟨db.save_email { annotated m .auto_reply resp now with status := .manual_required },
          { annotated m .auto_reply resp now with status := .manual_required },
          by simp [process_single_email, h, categoryStep, Bool.eq_false_iff.mpr ht],
          by simp [process_single_email, h, categoryStep, Bool.eq_false_iff.mpr ht,
            Effect.isSaveEmail],
          rfl, rfl, rfl, rfl, by simp, ?_, ?_, ?_⟩
      · intro hcat
        exact absurd hcat (by decide)
      · intro _
        refine ⟨Or.inr rfl, by simp [Bool.eq_false_iff.mpr ht], ?_⟩
        intro hx
        simp at hx
      · intro hcat
        exact absurd hcat (by decide)
  | rag_reply =>
    by_cases ht : strTruthy resp = true
    · cases hr : gmail.reply_to_email (annotated m .rag_reply resp now) (resp.getD "") with
      | some mid =>
        refine ⟨db.save_email { annotated m .rag_reply resp now with status := .replied },
            { annotated m .rag_reply resp now with status := .replied },
            by simp [process_single_email, h, categoryStep, ht, hr],
            by simp [process_single_email, h, categoryStep, ht, hr, Effect.isSaveEmail],
            rfl, rfl, rfl, rfl, by simp, ?_, ?_, ?_⟩
        · intro hcat
          exact absurd hcat (by decide)
        · intro _
          refine ⟨Or.inl rfl, by simp [ht, hr], ?_⟩
          intro _
          simp [process_single_email, h, categoryStep, ht, hr]
        · intro hcat
          exact absurd hcat (by decide)
      | none =>
        refine ⟨db.save_email { annotated m .rag_reply resp now with status := .manual_required },
            { annotated m .rag_reply resp now with status := .manual_required },
            by simp [process_single_email, h, categoryStep, ht, hr],
            by simp [process_single_email, h, categoryStep, ht, hr, Effect.isSaveEmail],
            rfl, rfl, rfl, rfl, by simp, ?_, ?_, ?_⟩
        · intro hcat
          exact absurd hcat (by decide)
        · intro _
          refine ⟨Or.inr rfl, by simp [hr], ?_⟩
          intro hx
          simp at hx
        · intro hcat
          exact absurd hcat (by decide)
    · refine ⟨db.save_email { annotated m .rag_reply resp now with status := .manual_required },
          { annotated m .rag_reply resp now with status := .manual_required },
          by simp [process_single_email, h, categoryStep, Bool.eq_false_iff.mpr ht],
          by simp [process_single_email, h, categoryStep, Bool.eq_false_iff.mpr ht,
            Effect.isSaveEmail],
          rfl, rfl, rfl, rfl, by simp, ?_, ?_, ?_⟩
      · intro hcat
        exact absurd hcat (by decide)
      · intro _
        refine ⟨Or.inr rfl, by simp [Bool.eq_false_iff.mpr ht], ?_⟩
        intro hx
        simp at hx
      · intro hcat
        exact absurd hcat (by decide)
  | pending_manual =>
    refine ⟨db.save_email { annotated m .pending_manual resp now with status := .manual_required },
        { annotated m .pending_manual resp now with status := .manual_required },
        by simp [process_single_email, h, categoryStep],
        by simp [process_single_email, h, categoryStep, Effect.isSaveEmail],
        rfl, rfl, rfl, rfl, by simp, ?_, ?_, ?_⟩
    · intro _
      refine ⟨rfl, ?_⟩
      intro eff heff
      simp only [process_single_email, h, categoryStep, List.mem_cons, List.nil_append,
        List.mem_singleton] at heff
      rcases heff with he | he | he
      · rw [he]; rfl
      · rw [he]; rfl
      · exact absurd he (List.not_mem_nil _)
    · intro hcat
      rcases hcat with hcat | hcat <;> exact absurd hcat (by decide)
    · intro hcat
      exact absurd hcat (by decide)
  | draft_review =>
    by_cases ht : strTruthy resp = true
    · cases hr : gmail.create_draft (draftReplyFor (annotated m .draft_review resp now)
          (resp.getD "")) with
      | some gid =>
        refine ⟨(db.save_draft { id := fid, email_id := m.id, gmail_draft_id := gid, ai_response := resp.getD "", created_at := now, status := "pending" }).save_email { annotated m .draft_review resp now with status := .draft },
            { annotated m .draft_review resp now with status := .draft },
            by simp [process_single_email, h, categoryStep, ht, hr],
            by simp [process_single_email, h, categoryStep, ht, hr, Effect.isSaveEmail],
            rfl, rfl, rfl, rfl, by simp, ?_, ?_, ?_⟩
        · intro hcat
          exact absurd hcat (by decide)
        · intro hcat
          rcases hcat with hcat | hcat <;> exact absurd hcat (by decide)
        · intro _
          refine ⟨Or.inl rfl, by simp [ht, hr], ?_, ?_⟩
          · intro _
            constructor
            · simp [process_single_email, h, categoryStep, ht, hr, Effect.isSaveDraft]
            · rw [save_email_drafts]
              simp [DB.save_draft]
          · intro hx
            simp at hx
      | none =>
        refine ⟨db.save_email { annotated m .draft_review resp now with status := .manual_required },
            { annotated m .draft_review resp now with status := .manual_required },
            by simp [process_single_email, h, categoryStep, ht, hr],
            by simp [process_single_email, h, categoryStep, ht, hr, Effect.isSaveEmail],
            rfl, rfl, rfl, rfl, by simp, ?_, ?_, ?_⟩
        · intro hcat
          exact absurd hcat (by decide)
        · intro hcat
          rcases hcat with hcat | hcat <;> exact absurd hcat (by decide)
        · intro _
          refine ⟨Or.inr rfl, by simp [hr], ?_, ?_⟩
          · intro hx
            simp at hx
          · intro _
            constructor
            · simp [process_single_email, h, categoryStep, ht, hr, Effect.isSaveDraft]
            · rw [save_email_drafts]
    · refine ⟨db.save_email { annotated m .draft_review resp now with status := .manual_required },
          { annotated m .draft_review resp now with status := .manual_required },
          by simp [process_single_email, h, categoryStep, Bool.eq_false_iff.mpr ht],
          by simp [process_single_email, h, categoryStep, Bool.eq_false_iff.mpr ht,
            Effect.isSaveEmail],
          rfl, rfl, rfl, rfl, by simp, ?_, ?_, ?_⟩
      · intro hcat
        exact absurd hcat (by decide)
      · intro hcat
        rcases hcat with hcat | hcat <;> exact absurd hcat (by decide)
      · intro _
        refine ⟨Or.inr rfl, by simp [Bool.eq_false_iff.mpr ht], ?_, ?_⟩
        · intro hx
          simp at hx
        · intro _
          constructor
          · simp [process_single_email, h, categoryStep, Bool.eq_false_iff.mpr ht,
              Effect.isSaveDraft]
          · rw [save_email_drafts]

/-- C4 witness: the action table instantiated at the `auto_reply` category
with a generated response and a failing provider send. -/
theorem category_action_table_witness :
    ∃ db2 m2,
      (process_single_email gmailFail clsAuto dbEmpty mSample 5 "d9").1 = .ok db2 ∧
      (process_single_email gmailFail clsAuto dbEmpty mSample 5 "d9").2.filter
        Effect.isSaveEmail = [.save_email m2] ∧
      m2.id = mSample.id ∧ m2.category = some .auto_reply ∧
      m2.ai_response = some "Hello back" ∧
      m2.processed_at = some 5 ∧ ¬ m2.status = .pending ∧
      (EmailCategory.auto_reply = .pending_manual →
        m2.status = .manual_required ∧
        ∀ eff ∈ (process_single_email gmailFail clsAuto dbEmpty mSample 5 "d9").2,
          eff.isProviderCall = false) ∧
      ((EmailCategory.auto_reply = .auto_reply ∨
          EmailCategory.auto_reply = .rag_reply) →
        (m2.status = .replied ∨ m2.status = .manual_required) ∧
        (m2.status = .replied ↔ strTruthy (some "Hello back") = true ∧
          ¬ gmailFail.reply_to_email
              (annotated mSample .auto_reply (some "Hello back") 5)
              ((some "Hello back").getD "") = none) ∧
        (m2.status = .replied →
          .mark_read mSample.id ∈
            (process_single_email gmailFail clsAuto dbEmpty mSample 5 "d9").2)) ∧
      (EmailCategory.auto_reply = .draft_review →
        (m2.status = .draft ∨ m2.status = .manual_required) ∧
        (m2.status = .draft ↔ strTruthy (some "Hello back") = true ∧
          ¬ gmailFail.create_draft
              (draftReplyFor (annotated mSample .auto_reply (some "Hello back") 5)
                ((some "Hello back").getD "")) = none) ∧
        (m2.status = .draft →
          ((process_single_email gmailFail clsAuto dbEmpty mSample 5 "d9").2.filter
            Effect.isSaveDraft).length = 1 ∧
          db2.drafts.length = dbEmpty.drafts.length + 1) ∧
        (m2.status = .manual_required →
          (process_single_email gmailFail clsAuto dbEmpty mSample 5 "d9").2.filter
            Effect.isSaveDraft = [] ∧
          db2.drafts = dbEmpty.drafts)) :=
  category_action_table gmailFail clsAuto dbEmpty mSample 5 "d9" .auto_reply
    (some "Hello back") rfl

end MailMarketing
